import Mathlib

/-!
Verification development for the `sacsurvey` repository (`src/cleaner.py`).

The file embeds the cleaner's data model and operations in Lean:
column addressing (`col_to_index`), the two answer record types, the two
division readers, the survey layout registry, and the row transformation
pipeline.  Cell access and constructor arity checks are modelled in
`Option`: a Python `IndexError`, `KeyError` or namedtuple arity error is
`none`.
-/

namespace SacSurvey

/-! ## Column addressing (`col_to_index` in cleaner.py) -/

/-- Python `ord(c.upper())` restricted to ASCII case folding: `str.upper`
maps `a`-`z` (codepoints 97-122) down by 32 and leaves other codepoints
of interest unchanged. -/
def pyUpperNat (c : Char) : ℕ :=
  if 97 ≤ c.toNat ∧ c.toNat ≤ 122 then c.toNat - 32 else c.toNat

/-- One iteration of the loop body of `col_to_index`: the `assert` that the
upper-cased codepoint lies in `[ord('A'), ord('Z')]`, then
`digit = char_val - a_value + 1`.  A failed assert is `none`. -/
def colDigit (c : Char) : Option ℕ :=
  if 65 ≤ pyUpperNat c ∧ pyUpperNat c ≤ 90 then some (pyUpperNat c - 65 + 1) else none

/-- The accumulation loop of `col_to_index` over `enumerate(reversed(col_name))`:
`val += digit * (26 ** i)`. -/
def colValAux : ℕ → List Char → Option ℕ
  | _, [] => some 0
  | i, c :: cs =>
    match colDigit c, colValAux (i + 1) cs with
    | some d, some rest => some (d * 26 ^ i + rest)
    | _, _ => none

/-- Function `col_to_index` from cleaner.py: bijective base-26 accumulation over the
reversed label, then `return val - 1`. -/
def col_to_index (s : String) : Option ℤ :=
  match colValAux 0 s.data.reverse with
  | some v => some ((v : ℤ) - 1)
  | none => none

/-- Constant `ROW_INDEX_SURVEY_TYPE = col_to_index('K')` in cleaner.py. -/
def ROW_INDEX_SURVEY_TYPE : ℕ := 10

/-! ## Specification-side formulation of the column value (for claim C2)

`bval` is the spec's formula: a bijective base-26 numeral whose digit at a
given position contributes `digit * 26 ^ position_from_right`, digits
running 1..26. -/

/-- Letter value 1..26 of a (case-folded) letter, per the spec. -/
def letterVal (c : Char) : ℕ := pyUpperNat c - 64

/-- Bijective base-26 value of a most-significant-first digit list. -/
def bval : List ℕ → ℕ
  | [] => 0
  | d :: ds => d * 26 ^ ds.length + bval ds

/-- Specification-side column value of a label: bijective base-26 over its
letter values. -/
def specColVal (s : String) : ℕ := bval (s.data.map letterVal)

/-- ASCII letter `A`-`Z` or `a`-`z`. -/
def isAsciiLetter (c : Char) : Prop :=
  (65 ≤ c.toNat ∧ c.toNat ≤ 90) ∨ (97 ≤ c.toNat ∧ c.toNat ≤ 122)

instance (c : Char) : Decidable (isAsciiLetter c) := by
  unfold isAsciiLetter; infer_instance

/-- Spreadsheet column order on labels: shorter labels come first, equal
lengths compare lexicographically on letter values (case-insensitive). -/
def sprLT (s t : String) : Prop :=
  s.data.length < t.data.length ∨
    (s.data.length = t.data.length ∧
      List.Lex (· < ·) (s.data.map letterVal) (t.data.map letterVal))

/-- Value of the loop starting at weight index `i`, over a
least-significant-first digit list. -/
def pvalN : ℕ → List ℕ → ℕ
  | _, [] => 0
  | i, d :: ds => d * 26 ^ i + pvalN (i + 1) ds

/-! ## Answer record types -/

/-- The `DivisionAnswers` namedtuple: `division_name` plus the 9 data
fields of `DIVISION_DATA_ARGS`, in order.  The first data field is spelled
`eduction` in cleaner.py. -/
structure DivisionAnswers where
  division_name : String
  eduction : String
  growth : String
  virtues : String
  character_growth : String
  teacher_communication : String
  leadership_communication : String
  welcoming : String
  strengths : String
  weaknesses : String
  deriving DecidableEq

/-- Tuple `DIVISION_DATA_ARGS` from cleaner.py (note the spelling `eduction`). -/
def DIVISION_DATA_ARGS : List String :=
  ["eduction", "growth", "virtues", "character_growth",
   "teacher_communication", "leadership_communication", "welcoming",
   "strengths", "weaknesses"]

def DIVISION_ARG_COUNT : ℕ := DIVISION_DATA_ARGS.length

/-- Python `DivisionAnswers(*args)`: succeeds exactly on 10 positional
arguments (`division_name` plus the 9 data fields), else a `TypeError`. -/
def DivisionAnswers.ofList : List String → Option DivisionAnswers
  | [dn, f1, f2, f3, f4, f5, f6, f7, f8, f9] =>
      some ⟨dn, f1, f2, f3, f4, f5, f6, f7, f8, f9⟩
  | _ => none

/-- The 9 data fields of a `DivisionAnswers` in the canonical
`DIVISION_DATA_ARGS` order (`getattr` over `DIVISION_DATA_ARGS`). -/
def DivisionAnswers.dataFields (x : DivisionAnswers) : List String :=
  [x.eduction, x.growth, x.virtues, x.character_growth,
   x.teacher_communication, x.leadership_communication, x.welcoming,
   x.strengths, x.weaknesses]

/-- The `WholeSchoolAnswers` namedtuple over `WHOLE_SCHOOL_ARGS`. -/
structure WholeSchoolAnswers where
  strengths : String
  weaknesses : String
  tenure : String
  iep_etc : String
  minority : String
  deriving DecidableEq

/-- Tuple `WHOLE_SCHOOL_ARGS` from cleaner.py. -/
def WHOLE_SCHOOL_ARGS : List String :=
  ["strengths", "weaknesses", "tenure", "iep_etc", "minority"]

def WHOLE_SCHOOL_ARG_COUNT : ℕ := WHOLE_SCHOOL_ARGS.length

/-- Python `WholeSchoolAnswers(*args)`: succeeds exactly on 5 positional
arguments. -/
def WholeSchoolAnswers.ofList : List String → Option WholeSchoolAnswers
  | [f1, f2, f3, f4, f5] => some ⟨f1, f2, f3, f4, f5⟩
  | _ => none

/-- The 5 fields of a `WholeSchoolAnswers` in canonical order. -/
def WholeSchoolAnswers.fieldsList (w : WholeSchoolAnswers) : List String :=
  [w.strengths, w.weaknesses, w.tenure, w.iep_etc, w.minority]

def GRAMMAR : String := "grammar"

def MIDDLE : String := "middle"

def HIGH : String := "high"

/-- Python `DivisionAnswers(*[""] * (DIVISION_ARG_COUNT + 1))`. -/
def emptyDivision : DivisionAnswers := ⟨"", "", "", "", "", "", "", "", "", ""⟩

/-- A reader result: `(grammar, middle, high, whole_school)`, the slot
order fixed by `DIVISION_TO_INDEX = {grammar: 0, middle: 1, high: 2}`. -/
abbrev ReaderOutput :=
  DivisionAnswers × DivisionAnswers × DivisionAnswers × WholeSchoolAnswers

/-- Fetch the given row cells in order (Python `row[col]`; a column beyond
the row is an `IndexError`, modelled as `none`). -/
def readCells (row : List String) : List ℕ → Option (List String)
  | [] => some []
  | i :: is =>
    match row.get? i, readCells row is with
    | some c, some rest => some (c :: rest)
    | _, _ => none

/-! ## Division readers -/

/-- Configuration of `SingleDivisionReader` (`stop` is Python `self.end`);
indices are `col_to_index` of the configured letters. -/
structure SingleDivisionReader where
  division : String
  start : ℕ
  stop : ℕ
  strengths : ℕ
  weaknesses : ℕ
  whole_school_cols : List ℕ

/-- Columns visited by `for col in range(self.start, self.end + 1)` that
pass the `col not in self.whole_school_cols` test. -/
def SingleDivisionReader.catIdxs (r : SingleDivisionReader) : List ℕ :=
  (List.range' r.start (r.stop + 1 - r.start)).filter
    (fun c => !(r.whole_school_cols.contains c))

/-- The loop `for k, v in DIVISION_TO_INDEX.items()` of the single reader:
the slot of the reader's own division is built from the collected argument
list (with the namedtuple arity check), every other slot is the all-empty
record. -/
def buildSlot (division : String) (divisionArgs : List String) (k : String) :
    Option DivisionAnswers :=
  if k = division then DivisionAnswers.ofList divisionArgs else some emptyDivision

/-- Method `SingleDivisionReader.__call__`. -/
def SingleDivisionReader.call (r : SingleDivisionReader) (row : List String) :
    Option ReaderOutput := do
  let catCells ← readCells row r.catIdxs
  let s ← row.get? r.strengths
  let w ← row.get? r.weaknesses
  let wholeCells ← readCells row r.whole_school_cols
  let divisionArgs := r.division :: (catCells ++ [s, w])
  let wa ← WholeSchoolAnswers.ofList wholeCells
  let g ← buildSlot r.division divisionArgs GRAMMAR
  let m ← buildSlot r.division divisionArgs MIDDLE
  let h ← buildSlot r.division divisionArgs HIGH
  pure (g, m, h, wa)

/-- Configuration of `MultiDivisionReader`; indices are `col_to_index` of
the configured letters. -/
structure MultiDivisionReader where
  divisions : List String
  start_categorical : ℕ
  end_categorical : ℕ
  start_open : ℕ
  end_open : ℕ
  whole_school_cols : List ℕ

/-- Columns of `range(self.start_categorical, self.end_categorical + 1)`. -/
def MultiDivisionReader.catIdxs (r : MultiDivisionReader) : List ℕ :=
  List.range' r.start_categorical (r.end_categorical + 1 - r.start_categorical)

/-- Columns of `range(self.start_open, self.end_open + 1)`. -/
def MultiDivisionReader.openIdxs (r : MultiDivisionReader) : List ℕ :=
  List.range' r.start_open (r.end_open + 1 - r.start_open)

/-- The round-robin loop `buckets[j % len(buckets)].append(cell); j += 1`,
starting from counter value `j`. -/
def distributeAux (j : ℕ) (buckets : List (List String)) :
    List String → List (List String)
  | [] => buckets
  | c :: cs =>
    distributeAux (j + 1)
      (buckets.set (j % buckets.length)
        (buckets.getD (j % buckets.length) [] ++ [c])) cs

/-- Round-robin distribution of `cells` over `buckets`, counter starting
at 0. -/
def distribute (buckets : List (List String)) (cells : List String) :
    List (List String) :=
  distributeAux 0 buckets cells

/-- The inner loop `for d in division_args: if k == d[0]: out[v] =
DivisionAnswers(*d)` of the multi reader, threading the current slot value
(Python starts from `None`): a matching argument list replaces the slot
(after the namedtuple arity check, whose failure aborts), later matches
overwrite earlier ones. -/
def multiSlotLoop (k : String) : List (List String) → Option DivisionAnswers →
    Option (Option DivisionAnswers)
  | [], acc => some acc
  | d :: ds, acc =>
    if d.headD "" = k then
      match DivisionAnswers.ofList d with
      | some da => multiSlotLoop k ds (some da)
      | none => none
    else multiSlotLoop k ds acc

/-- The loop `for k, v in DIVISION_TO_INDEX.items()` of the multi reader:
a division in the configured list takes the record left by the inner loop
(a slot still `None` after the loop would crash the pipeline later, so it
is modelled as failure); a division missing from the configured list gets
the all-empty record. -/
def multiSlot (divisions : List String) (dargs : List (List String))
    (k : String) : Option DivisionAnswers :=
  if k ∈ divisions then
    match multiSlotLoop k dargs none with
    | some (some da) => some da
    | _ => none
  else some emptyDivision

/-- Method `MultiDivisionReader.__call__`. -/
def MultiDivisionReader.call (r : MultiDivisionReader) (row : List String) :
    Option ReaderOutput := do
  let catCells ← readCells row r.catIdxs
  let openCells ← readCells row r.openIdxs
  let wholeExtra ← readCells row r.whole_school_cols
  let dargs1 := distribute (r.divisions.map (fun d => [d])) catCells
  let args2 := distribute (dargs1 ++ [[]]) openCells
  let wholeArgs := args2.getLastD [] ++ wholeExtra
  let dargs := args2.dropLast
  let wa ← WholeSchoolAnswers.ofList wholeArgs
  let g ← multiSlot r.divisions dargs GRAMMAR
  let m ← multiSlot r.divisions dargs MIDDLE
  let h ← multiSlot r.divisions dargs HIGH
  pure (g, m, h, wa)

/-- A registered reader is one of the two kinds. -/
inductive Reader where
  | single : SingleDivisionReader → Reader
  | multi : MultiDivisionReader → Reader

/-- Invoke a registered reader on a row. -/
def Reader.call : Reader → List String → Option ReaderOutput
  | .single r, row => r.call row
  | .multi r, row => r.call row

/-! ## Survey layout registry

Numeric indices below are `col_to_index` of the letters configured in
cleaner.py; the theorem `config_col_indices` checks every conversion. -/

/-- Registered `SingleDivisionReader(GRAMMAR, 'L', 'R', 'S', 'U', ['T','V','ED','EE','EF'])`. -/
def grammarOnlyReader : SingleDivisionReader :=
  ⟨GRAMMAR, 11, 17, 18, 20, [19, 21, 133, 134, 135]⟩

/-- Registered `SingleDivisionReader(MIDDLE, 'CN', 'CT', 'CU', 'CW', ['CV','CX','ED','EE','EF'])`. -/
def middleOnlyReader : SingleDivisionReader :=
  ⟨MIDDLE, 91, 97, 98, 100, [99, 101, 133, 134, 135]⟩

/-- Registered `SingleDivisionReader(HIGH, 'DS', 'DY', 'DZ', 'EB', ['EA','EC','ED','EE','EF'])`. -/
def highOnlyReader : SingleDivisionReader :=
  ⟨HIGH, 122, 128, 129, 131, [130, 132, 133, 134, 135]⟩

/-- Registered `MultiDivisionReader([GRAMMAR, MIDDLE], 'W', 'AJ', 'AK', 'AP', ['ED','EE','EF'])`. -/
def grammarMiddleReader : MultiDivisionReader :=
  ⟨[GRAMMAR, MIDDLE], 22, 35, 36, 41, [133, 134, 135]⟩

/-- Registered `MultiDivisionReader([GRAMMAR, HIGH], 'AQ', 'BD', 'BE', 'BJ', ['ED','EE','EF'])`. -/
def grammarHighReader : MultiDivisionReader :=
  ⟨[GRAMMAR, HIGH], 42, 55, 56, 61, [133, 134, 135]⟩

/-- Registered `MultiDivisionReader([GRAMMAR, MIDDLE, HIGH], 'BK', 'CE', 'CF', 'CM', ['ED','EE','EF'])`. -/
def grammarMiddleHighReader : MultiDivisionReader :=
  ⟨[GRAMMAR, MIDDLE, HIGH], 62, 82, 83, 90, [133, 134, 135]⟩

/-- Registered `MultiDivisionReader([MIDDLE, HIGH], 'CY', 'DL', 'DM', 'DR', ['ED','EE','EF'])`. -/
def middleHighReader : MultiDivisionReader :=
  ⟨[MIDDLE, HIGH], 102, 115, 116, 121, [133, 134, 135]⟩

/-- Registry `SURVEY_READERS` from cleaner.py, as an exact-match association list
(dict keyed on the survey-type literals). -/
def SURVEY_READERS : List (String × Reader) :=
  [("Grammar School only (K-6)", .single grammarOnlyReader),
   ("Middle School only (7-8)", .single middleOnlyReader),
   ("High School only (9-12)", .single highOnlyReader),
   ("Grammar and Middle School only (K-6 and 7-8)", .multi grammarMiddleReader),
   ("Grammar and High School only (K-6 and 9-12)", .multi grammarHighReader),
   ("Grammar, Middle, and High School (K-6, 7-8, and 9-12)", .multi grammarMiddleHighReader),
   ("Middle and High School only (7-8 and 9-12)", .multi middleHighReader)]

/-! ## Row transformation pipeline (`Cleaner` in cleaner.py) -/

/-- Method `Cleaner.make_first_row` (`ROW_INDEX_SURVEY_TYPE + 1` is Python
`col_to_index('K') + 1`). -/
def make_first_row (row : List String) : List String :=
  row.take (ROW_INDEX_SURVEY_TYPE + 1)
    ++ List.replicate DIVISION_ARG_COUNT GRAMMAR
    ++ List.replicate DIVISION_ARG_COUNT MIDDLE
    ++ List.replicate DIVISION_ARG_COUNT HIGH
    ++ List.replicate WHOLE_SCHOOL_ARG_COUNT "whole"

/-- Method `Cleaner.make_second_row`. -/
def make_second_row (row : List String) : List String :=
  row.take (ROW_INDEX_SURVEY_TYPE + 1)
    ++ DIVISION_DATA_ARGS ++ DIVISION_DATA_ARGS ++ DIVISION_DATA_ARGS
    ++ WHOLE_SCHOOL_ARGS

/-- One iteration of the row loop in `Cleaner.__init__`: the row at index
`i` becomes the row written to the output.  `none` models an uncaught
exception: a missing survey-type cell, the registry `KeyError`, a row
`IndexError` or a namedtuple arity error. -/
def processRow (i : ℕ) (row : List String) : Option (List String) :=
  if i = 0 then some (make_first_row row)
  else if i = 1 then some (make_second_row row)
  else do
    let surveyType ← row.get? ROW_INDEX_SURVEY_TYPE
    let rd ← List.lookup surveyType SURVEY_READERS
    let (g, m, h, w) ← rd.call row
    pure (row.take (ROW_INDEX_SURVEY_TYPE + 1)
      ++ g.dataFields ++ m.dataFields ++ h.dataFields ++ w.fieldsList)

theorem col_to_index_K : col_to_index "K" = some (ROW_INDEX_SURVEY_TYPE : ℤ) := by decide

/-! ### Lemmas about the accumulation loop -/

theorem pyUpperNat_letter {c : Char} (h : isAsciiLetter c) :
    65 ≤ pyUpperNat c ∧ pyUpperNat c ≤ 90 := by
  rcases h with ⟨h1, h2⟩ | ⟨h1, h2⟩ <;> unfold pyUpperNat <;> split_ifs <;> omega

theorem colDigit_eq_of_letter {c : Char} (h : isAsciiLetter c) :
    colDigit c = some (letterVal c) := by
  have hu := pyUpperNat_letter h
  unfold colDigit letterVal
  rw [if_pos hu]
  congr 1
  omega

theorem letterVal_bounds {c : Char} (h : isAsciiLetter c) :
    1 ≤ letterVal c ∧ letterVal c ≤ 26 := by
  have hu := pyUpperNat_letter h
  unfold letterVal
  omega

theorem colValAux_eq_none {c : Char} (hc : colDigit c = none) :
    ∀ (cs : List Char) (i : ℕ), c ∈ cs → colValAux i cs = none := by
  intro cs
  induction cs with
  | nil => intro i h; cases h
  | cons d tl ih =>
    intro i hmem
    rcases List.mem_cons.mp hmem with rfl | hmem
    · simp [colValAux, hc]
    · cases hd : colDigit d <;> simp [colValAux, hd, ih _ hmem]

theorem colValAux_eq_some :
    ∀ (cs : List Char) (i : ℕ), (∀ c ∈ cs, isAsciiLetter c) →
      colValAux i cs = some (pvalN i (cs.map letterVal)) := by
  intro cs
  induction cs with
  | nil => intro i _; rfl
  | cons d tl ih =>
    intro i h
    have hd := colDigit_eq_of_letter (h d (List.mem_cons_self d tl))
    have htl := ih (i + 1) (fun c hc => h c (List.mem_cons_of_mem d hc))
    simp [colValAux, hd, htl, pvalN]

theorem pvalN_append (xs ys : List ℕ) :
    ∀ i, pvalN i (xs ++ ys) = pvalN i xs + pvalN (i + xs.length) ys := by
  induction xs with
  | nil => intro i; simp [pvalN]
  | cons x tl ih =>
    intro i
    show x * 26 ^ i + pvalN (i + 1) (tl ++ ys)
        = x * 26 ^ i + pvalN (i + 1) tl + pvalN (i + (tl.length + 1)) ys
    rw [ih (i + 1)]
    have h : i + 1 + tl.length = i + (tl.length + 1) := by omega
    rw [h, Nat.add_assoc]

theorem pvalN_reverse (ds : List ℕ) : pvalN 0 ds.reverse = bval ds := by
  induction ds with
  | nil => rfl
  | cons d tl ih =>
    rw [List.reverse_cons, pvalN_append, ih, List.length_reverse]
    simp only [pvalN, bval, Nat.zero_add, Nat.add_zero]
    ring

/-- On a label made of ASCII letters, `col_to_index` computes the
specification-side bijective base-26 value minus one. -/
theorem col_to_index_eq_specColVal {s : String}
    (h : ∀ c ∈ s.data, isAsciiLetter c) :
    col_to_index s = some ((specColVal s : ℤ) - 1) := by
  have hrev : ∀ c ∈ s.data.reverse, isAsciiLetter c := by
    intro c hc; exact h c (List.mem_reverse.mp hc)
  have h1 := colValAux_eq_some s.data.reverse 0 hrev
  have h2 : (s.data.reverse.map letterVal) = (s.data.map letterVal).reverse := by
    rw [List.map_reverse]
  rw [h2, pvalN_reverse] at h1
  unfold col_to_index specColVal
  rw [h1]

/-! ### Monotonicity of the bijective base-26 value -/

theorem bval_lower {ds : List ℕ} (h : ∀ d ∈ ds, 1 ≤ d ∧ d ≤ 26) :
    26 ^ ds.length ≤ 25 * bval ds + 1 := by
  induction ds with
  | nil => simp [bval]
  | cons d tl ih =>
    have htl := ih (fun x hx => h x (List.mem_cons_of_mem d hx))
    have hd := h d (List.mem_cons_self d tl)
    simp only [bval, List.length_cons, pow_succ]
    nlinarith [pow_pos (by norm_num : (0:ℕ) < 26) tl.length]

theorem bval_upper {ds : List ℕ} (h : ∀ d ∈ ds, 1 ≤ d ∧ d ≤ 26) :
    25 * bval ds + 26 ≤ 26 ^ (ds.length + 1) := by
  induction ds with
  | nil => simp [bval]
  | cons d tl ih =>
    have htl := ih (fun x hx => h x (List.mem_cons_of_mem d hx))
    have hd := h d (List.mem_cons_self d tl)
    simp only [bval, List.length_cons, pow_succ] at htl ⊢
    nlinarith [pow_pos (by norm_num : (0:ℕ) < 26) tl.length]

theorem bval_lt_of_length_lt {l1 l2 : List ℕ}
    (h1 : ∀ d ∈ l1, 1 ≤ d ∧ d ≤ 26) (h2 : ∀ d ∈ l2, 1 ≤ d ∧ d ≤ 26)
    (hlen : l1.length < l2.length) : bval l1 < bval l2 := by
  have ha := bval_upper h1
  have hb := bval_lower h2
  have hc : (26:ℕ) ^ (l1.length + 1) ≤ 26 ^ l2.length :=
    Nat.pow_le_pow_right (by norm_num) (by omega)
  linarith

theorem bval_lt_of_lex :
    ∀ {l1 l2 : List ℕ}, List.Lex (· < ·) l1 l2 →
      (∀ d ∈ l1, 1 ≤ d ∧ d ≤ 26) → (∀ d ∈ l2, 1 ≤ d ∧ d ≤ 26) →
      l1.length = l2.length → bval l1 < bval l2 := by
  intro l1 l2 hlex
  induction hlex with
  | nil => intro _ _ hlen; simp at hlen
  | @rel a t1 b t2 hab =>
    intro h1 h2 hlen
    have ht1 : ∀ d ∈ t1, 1 ≤ d ∧ d ≤ 26 := fun x hx => h1 x (List.mem_cons_of_mem a hx)
    have ht2 : ∀ d ∈ t2, 1 ≤ d ∧ d ≤ 26 := fun x hx => h2 x (List.mem_cons_of_mem b hx)
    have hn : t1.length = t2.length := by simpa using hlen
    have hu := bval_upper ht1
    have hl := bval_lower ht2
    simp only [bval, hn]
    have hmul : (a + 1) * 26 ^ t2.length ≤ b * 26 ^ t2.length :=
      Nat.mul_le_mul_right _ hab
    rw [add_mul, one_mul] at hmul
    rw [hn] at hu
    simp only [pow_succ] at hu
    linarith
  | @cons a t1 t2 _ ih =>
    intro h1 h2 hlen
    have ht1 : ∀ d ∈ t1, 1 ≤ d ∧ d ≤ 26 := fun x hx => h1 x (List.mem_cons_of_mem a hx)
    have ht2 : ∀ d ∈ t2, 1 ≤ d ∧ d ≤ 26 := fun x hx => h2 x (List.mem_cons_of_mem a hx)
    have hn : t1.length = t2.length := by simpa using hlen
    have := ih ht1 ht2 hn
    simp only [bval, hn]
    omega

theorem specColVal_strict_mono {s t : String}
    (hs : ∀ c ∈ s.data, isAsciiLetter c) (ht : ∀ c ∈ t.data, isAsciiLetter c)
    (hlt : sprLT s t) : specColVal s < specColVal t := by
  have hvs : ∀ d ∈ s.data.map letterVal, 1 ≤ d ∧ d ≤ 26 := by
    intro d hd
    rcases List.mem_map.mp hd with ⟨c, hc, rfl⟩
    exact letterVal_bounds (hs c hc)
  have hvt : ∀ d ∈ t.data.map letterVal, 1 ≤ d ∧ d ≤ 26 := by
    intro d hd
    rcases List.mem_map.mp hd with ⟨c, hc, rfl⟩
    exact letterVal_bounds (ht c hc)
  rcases hlt with hlen | ⟨hlen, hlex⟩
  · exact bval_lt_of_length_lt hvs hvt (by simpa using hlen)
  · exact bval_lt_of_lex hlex hvs hvt (by simpa using hlen)

/-! ## Claims C2, C9, C10 about column addressing -/

/-- C2: for every column label consisting of ASCII letters, `col_to_index`
returns the bijective base-26 value of the label (letter values 1-26, each
position weighted 26^position_from_right) minus 1; in particular
`col_to_index "A" = 0`, `col_to_index "Z" = 25`, `col_to_index "AA" = 26`,
and the function is strictly increasing in spreadsheet column order
(`sprLT`). -/
theorem claim_C2_col_to_index_bijective_base26 :
    (∀ s : String, (∀ c ∈ s.data, isAsciiLetter c) →
        col_to_index s = some ((specColVal s : ℤ) - 1))
    ∧ col_to_index "A" = some 0
    ∧ col_to_index "Z" = some 25
    ∧ col_to_index "AA" = some 26
    ∧ (∀ s t : String, (∀ c ∈ s.data, isAsciiLetter c) →
        (∀ c ∈ t.data, isAsciiLetter c) → sprLT s t →
        ∃ u v : ℤ, col_to_index s = some u ∧ col_to_index t = some v ∧ u < v) := by
  refine ⟨fun s h => col_to_index_eq_specColVal h, by decide, by decide, by decide, ?_⟩
  intro s t hs ht hlt
  refine ⟨(specColVal s : ℤ) - 1, (specColVal t : ℤ) - 1,
    col_to_index_eq_specColVal hs, col_to_index_eq_specColVal ht, ?_⟩
  have := specColVal_strict_mono hs ht hlt
  omega

/-- Witness for C2, instantiated at the labels `Z` and `AA`. -/
theorem claim_C2_witness :
    ∃ u v : ℤ, col_to_index "Z" = some u ∧ col_to_index "AA" = some v ∧ u < v :=
  claim_C2_col_to_index_bijective_base26.2.2.2.2 "Z" "AA" (by decide) (by decide)
    (by unfold sprLT; left; decide)

/-- C9: `col_to_index` fails (the assert is violated, modelled as `none`) if
any character of the label lies outside `A`-`Z` after case normalization;
conversely, if every character is an ASCII letter `A`-`Z` or `a`-`z`, the
failure branch is unreachable and the function returns a value. -/
theorem claim_C9_col_to_index_assert :
    (∀ (s : String) (c : Char), c ∈ s.data →
        ¬(65 ≤ pyUpperNat c ∧ pyUpperNat c ≤ 90) → col_to_index s = none)
    ∧ (∀ s : String, (∀ c ∈ s.data, isAsciiLetter c) →
        ∃ v : ℤ, col_to_index s = some v) := by
  constructor
  · intro s c hc hbad
    have hd : colDigit c = none := by unfold colDigit; rw [if_neg hbad]
    have h0 := colValAux_eq_none hd s.data.reverse 0 (List.mem_reverse.mpr hc)
    unfold col_to_index
    rw [h0]
  · intro s h
    exact ⟨(specColVal s : ℤ) - 1, col_to_index_eq_specColVal h⟩

/-- Witness for C9: the label `A?` fails, the label `ab` succeeds. -/
theorem claim_C9_witness :
    col_to_index "A?" = none ∧ ∃ v : ℤ, col_to_index "ab" = some v :=
  ⟨claim_C9_col_to_index_assert.1 "A?" (Char.ofNat 63) (by decide) (by decide),
   claim_C9_col_to_index_assert.2 "ab" (by decide)⟩

/-- C10: called on the empty string, `col_to_index` does not fail: the loop
never executes, the assert is never checked, and the function returns `-1`,
which is not a valid zero-based column position. -/
theorem claim_C10_empty_label :
    col_to_index "" = some (-1) ∧ ∀ n : ℕ, (-1 : ℤ) ≠ (n : ℤ) := by
  exact ⟨by decide, fun n => by omega⟩

/-- Every configured column letter of cleaner.py converts to the numeric
index used in the reader configurations above. -/
theorem config_col_indices :
    col_to_index "L" = some 11 ∧ col_to_index "R" = some 17 ∧
    col_to_index "S" = some 18 ∧ col_to_index "T" = some 19 ∧
    col_to_index "U" = some 20 ∧ col_to_index "V" = some 21 ∧
    col_to_index "W" = some 22 ∧ col_to_index "AJ" = some 35 ∧
    col_to_index "AK" = some 36 ∧ col_to_index "AP" = some 41 ∧
    col_to_index "AQ" = some 42 ∧ col_to_index "BD" = some 55 ∧
    col_to_index "BE" = some 56 ∧ col_to_index "BJ" = some 61 ∧
    col_to_index "BK" = some 62 ∧ col_to_index "CE" = some 82 ∧
    col_to_index "CF" = some 83 ∧ col_to_index "CM" = some 90 ∧
    col_to_index "CN" = some 91 ∧ col_to_index "CT" = some 97 ∧
    col_to_index "CU" = some 98 ∧ col_to_index "CV" = some 99 ∧
    col_to_index "CW" = some 100 ∧ col_to_index "CX" = some 101 ∧
    col_to_index "CY" = some 102 ∧ col_to_index "DL" = some 115 ∧
    col_to_index "DM" = some 116 ∧ col_to_index "DR" = some 121 ∧
    col_to_index "DS" = some 122 ∧ col_to_index "DY" = some 128 ∧
    col_to_index "DZ" = some 129 ∧ col_to_index "EA" = some 130 ∧
    col_to_index "EB" = some 131 ∧ col_to_index "EC" = some 132 ∧
    col_to_index "ED" = some 133 ∧ col_to_index "EE" = some 134 ∧
    col_to_index "EF" = some 135 := by
  decide

/-! ## Evaluation of each registered reader on a sufficiently long row

Every layout references column `EF` = 135 as its largest index, so a row
with `135 < row.length` contains every referenced column. -/

theorem get?_eq_getD {row : List String} {i : ℕ} (h : i < row.length) :
    row.get? i = some (row.getD i "") := by
  rw [List.get?_eq_getElem?, List.getD_eq_getElem?_getD, List.getElem?_eq_getElem h]
  rfl

theorem readCells_eq (row : List String) :
    ∀ idxs : List ℕ, (∀ i ∈ idxs, i < row.length) →
      readCells row idxs = some (idxs.map (fun i => row.getD i "")) := by
  intro idxs
  induction idxs with
  | nil => intro _; rfl
  | cons i is ih =>
    intro h
    have h1 := get?_eq_getD (h i (List.mem_cons_self i is))
    have h2 := ih (fun j hj => h j (List.mem_cons_of_mem i hj))
    simp only [readCells, h1, h2, List.map_cons]

theorem eval_grammarOnly (row : List String) (h : 135 < row.length) :
    Reader.call (.single grammarOnlyReader) row = some
      (⟨GRAMMAR, row.getD 11 "", row.getD 12 "", row.getD 13 "", row.getD 14 "",
        row.getD 15 "", row.getD 16 "", row.getD 17 "", row.getD 18 "", row.getD 20 ""⟩,
       emptyDivision, emptyDivision,
       ⟨row.getD 19 "", row.getD 21 "", row.getD 133 "", row.getD 134 "",
        row.getD 135 ""⟩) := by
  show grammarOnlyReader.call row = _
  unfold SingleDivisionReader.call
  rw [(by decide : grammarOnlyReader.catIdxs = [11, 12, 13, 14, 15, 16, 17]),
    (by decide : grammarOnlyReader.strengths = 18),
    (by decide : grammarOnlyReader.weaknesses = 20),
    (by decide : grammarOnlyReader.whole_school_cols = [19, 21, 133, 134, 135]),
    readCells_eq row [11, 12, 13, 14, 15, 16, 17] (by intro i hi; simp at hi; omega),
    readCells_eq row [19, 21, 133, 134, 135] (by intro i hi; simp at hi; omega),
    get?_eq_getD (show 18 < row.length by omega),
    get?_eq_getD (show 20 < row.length by omega)]
  rfl

theorem eval_middleOnly (row : List String) (h : 135 < row.length) :
    Reader.call (.single middleOnlyReader) row = some
      (emptyDivision,
       ⟨MIDDLE, row.getD 91 "", row.getD 92 "", row.getD 93 "", row.getD 94 "",
        row.getD 95 "", row.getD 96 "", row.getD 97 "", row.getD 98 "", row.getD 100 ""⟩,
       emptyDivision,
       ⟨row.getD 99 "", row.getD 101 "", row.getD 133 "", row.getD 134 "",
        row.getD 135 ""⟩) := by
  show middleOnlyReader.call row = _
  unfold SingleDivisionReader.call
  rw [(by decide : middleOnlyReader.catIdxs = [91, 92, 93, 94, 95, 96, 97]),
    (by decide : middleOnlyReader.strengths = 98),
    (by decide : middleOnlyReader.weaknesses = 100),
    (by decide : middleOnlyReader.whole_school_cols = [99, 101, 133, 134, 135]),
    readCells_eq row [91, 92, 93, 94, 95, 96, 97] (by intro i hi; simp at hi; omega),
    readCells_eq row [99, 101, 133, 134, 135] (by intro i hi; simp at hi; omega),
    get?_eq_getD (show 98 < row.length by omega),
    get?_eq_getD (show 100 < row.length by omega)]
  rfl

theorem eval_highOnly (row : List String) (h : 135 < row.length) :
    Reader.call (.single highOnlyReader) row = some
      (emptyDivision, emptyDivision,
       ⟨HIGH, row.getD 122 "", row.getD 123 "", row.getD 124 "", row.getD 125 "",
        row.getD 126 "", row.getD 127 "", row.getD 128 "", row.getD 129 "", row.getD 131 ""⟩,
       ⟨row.getD 130 "", row.getD 132 "", row.getD 133 "", row.getD 134 "",
        row.getD 135 ""⟩) := by
  show highOnlyReader.call row = _
  unfold SingleDivisionReader.call
  rw [(by decide : highOnlyReader.catIdxs = [122, 123, 124, 125, 126, 127, 128]),
    (by decide : highOnlyReader.strengths = 129),
    (by decide : highOnlyReader.weaknesses = 131),
    (by decide : highOnlyReader.whole_school_cols = [130, 132, 133, 134, 135]),
    readCells_eq row [122, 123, 124, 125, 126, 127, 128] (by intro i hi; simp at hi; omega),
    readCells_eq row [130, 132, 133, 134, 135] (by intro i hi; simp at hi; omega),
    get?_eq_getD (show 129 < row.length by omega),
    get?_eq_getD (show 131 < row.length by omega)]
  rfl

theorem eval_grammarMiddle (row : List String) (h : 135 < row.length) :
    Reader.call (.multi grammarMiddleReader) row = some
      (⟨GRAMMAR, row.getD 22 "", row.getD 24 "", row.getD 26 "", row.getD 28 "", row.getD 30 "", row.getD 32 "", row.getD 34 "", row.getD 36 "", row.getD 39 ""⟩,
       ⟨MIDDLE, row.getD 23 "", row.getD 25 "", row.getD 27 "", row.getD 29 "", row.getD 31 "", row.getD 33 "", row.getD 35 "", row.getD 37 "", row.getD 40 ""⟩,
       emptyDivision,
       ⟨row.getD 38 "", row.getD 41 "", row.getD 133 "", row.getD 134 "", row.getD 135 ""⟩) := by
  have hd1 : distribute [[GRAMMAR], [MIDDLE]]
      [row.getD 22 "", row.getD 23 "", row.getD 24 "", row.getD 25 "", row.getD 26 "", row.getD 27 "", row.getD 28 "", row.getD 29 "", row.getD 30 "", row.getD 31 "", row.getD 32 "", row.getD 33 "", row.getD 34 "", row.getD 35 ""]
      = [[GRAMMAR, row.getD 22 "", row.getD 24 "", row.getD 26 "", row.getD 28 "", row.getD 30 "", row.getD 32 "", row.getD 34 ""],
         [MIDDLE, row.getD 23 "", row.getD 25 "", row.getD 27 "", row.getD 29 "", row.getD 31 "", row.getD 33 "", row.getD 35 ""]] := by
    simp [distribute, distributeAux]
  have hd2 : distribute
      ([[GRAMMAR, row.getD 22 "", row.getD 24 "", row.getD 26 "", row.getD 28 "", row.getD 30 "", row.getD 32 "", row.getD 34 ""],
         [MIDDLE, row.getD 23 "", row.getD 25 "", row.getD 27 "", row.getD 29 "", row.getD 31 "", row.getD 33 "", row.getD 35 ""]] ++ [[]])
      [row.getD 36 "", row.getD 37 "", row.getD 38 "", row.getD 39 "", row.getD 40 "", row.getD 41 ""]
      = [[GRAMMAR, row.getD 22 "", row.getD 24 "", row.getD 26 "", row.getD 28 "", row.getD 30 "", row.getD 32 "", row.getD 34 "", row.getD 36 "", row.getD 39 ""],
         [MIDDLE, row.getD 23 "", row.getD 25 "", row.getD 27 "", row.getD 29 "", row.getD 31 "", row.getD 33 "", row.getD 35 "", row.getD 37 "", row.getD 40 ""],
         [row.getD 38 "", row.getD 41 ""]] := by
    simp [distribute, distributeAux]
  show grammarMiddleReader.call row = _
  unfold MultiDivisionReader.call
  rw [(by decide : grammarMiddleReader.catIdxs = [22, 23, 24, 25, 26, 27, 28, 29, 30, 31, 32, 33, 34, 35]),
    (by decide : grammarMiddleReader.openIdxs = [36, 37, 38, 39, 40, 41]),
    (by decide : grammarMiddleReader.whole_school_cols = [133, 134, 135]),
    readCells_eq row [22, 23, 24, 25, 26, 27, 28, 29, 30, 31, 32, 33, 34, 35] (by intro i hi; simp at hi; omega),
    readCells_eq row [36, 37, 38, 39, 40, 41] (by intro i hi; simp at hi; omega),
    readCells_eq row [133, 134, 135] (by intro i hi; simp at hi; omega)]
  simp only [Option.bind_eq_bind, Option.some_bind, List.map_cons, List.map_nil]
  rw [(by decide : grammarMiddleReader.divisions = [GRAMMAR, MIDDLE])]
  simp only [List.map_cons, List.map_nil]
  rw [hd1, hd2]
  simp [multiSlot, multiSlotLoop, DivisionAnswers.ofList, WholeSchoolAnswers.ofList,
    GRAMMAR, MIDDLE, HIGH, emptyDivision, List.getLastD, List.dropLast]

theorem eval_grammarHigh (row : List String) (h : 135 < row.length) :
    Reader.call (.multi grammarHighReader) row = some
      (⟨GRAMMAR, row.getD 42 "", row.getD 44 "", row.getD 46 "", row.getD 48 "", row.getD 50 "", row.getD 52 "", row.getD 54 "", row.getD 56 "", row.getD 59 ""⟩,
       emptyDivision,
       ⟨HIGH, row.getD 43 "", row.getD 45 "", row.getD 47 "", row.getD 49 "", row.getD 51 "", row.getD 53 "", row.getD 55 "", row.getD 57 "", row.getD 60 ""⟩,
       ⟨row.getD 58 "", row.getD 61 "", row.getD 133 "", row.getD 134 "", row.getD 135 ""⟩) := by
  have hd1 : distribute [[GRAMMAR], [HIGH]]
      [row.getD 42 "", row.getD 43 "", row.getD 44 "", row.getD 45 "", row.getD 46 "", row.getD 47 "", row.getD 48 "", row.getD 49 "", row.getD 50 "", row.getD 51 "", row.getD 52 "", row.getD 53 "", row.getD 54 "", row.getD 55 ""]
      = [[GRAMMAR, row.getD 42 "", row.getD 44 "", row.getD 46 "", row.getD 48 "", row.getD 50 "", row.getD 52 "", row.getD 54 ""],
         [HIGH, row.getD 43 "", row.getD 45 "", row.getD 47 "", row.getD 49 "", row.getD 51 "", row.getD 53 "", row.getD 55 ""]] := by
    simp [distribute, distributeAux]
  have hd2 : distribute
      ([[GRAMMAR, row.getD 42 "", row.getD 44 "", row.getD 46 "", row.getD 48 "", row.getD 50 "", row.getD 52 "", row.getD 54 ""],
         [HIGH, row.getD 43 "", row.getD 45 "", row.getD 47 "", row.getD 49 "", row.getD 51 "", row.getD 53 "", row.getD 55 ""]] ++ [[]])
      [row.getD 56 "", row.getD 57 "", row.getD 58 "", row.getD 59 "", row.getD 60 "", row.getD 61 ""]
      = [[GRAMMAR, row.getD 42 "", row.getD 44 "", row.getD 46 "", row.getD 48 "", row.getD 50 "", row.getD 52 "", row.getD 54 "", row.getD 56 "", row.getD 59 ""],
         [HIGH, row.getD 43 "", row.getD 45 "", row.getD 47 "", row.getD 49 "", row.getD 51 "", row.getD 53 "", row.getD 55 "", row.getD 57 "", row.getD 60 ""],
         [row.getD 58 "", row.getD 61 ""]] := by
    simp [distribute, distributeAux]
  show grammarHighReader.call row = _
  unfold MultiDivisionReader.call
  rw [(by decide : grammarHighReader.catIdxs = [42, 43, 44, 45, 46, 47, 48, 49, 50, 51, 52, 53, 54, 55]),
    (by decide : grammarHighReader.openIdxs = [56, 57, 58, 59, 60, 61]),
    (by decide : grammarHighReader.whole_school_cols = [133, 134, 135]),
    readCells_eq row [42, 43, 44, 45, 46, 47, 48, 49, 50, 51, 52, 53, 54, 55] (by intro i hi; simp at hi; omega),
    readCells_eq row [56, 57, 58, 59, 60, 61] (by intro i hi; simp at hi; omega),
    readCells_eq row [133, 134, 135] (by intro i hi; simp at hi; omega)]
  simp only [Option.bind_eq_bind, Option.some_bind, List.map_cons, List.map_nil]
  rw [(by decide : grammarHighReader.divisions = [GRAMMAR, HIGH])]
  simp only [List.map_cons, List.map_nil]
  rw [hd1, hd2]
  simp [multiSlot, multiSlotLoop, DivisionAnswers.ofList, WholeSchoolAnswers.ofList,
    GRAMMAR, MIDDLE, HIGH, emptyDivision, List.getLastD, List.dropLast]

theorem eval_grammarMiddleHigh (row : List String) (h : 135 < row.length) :
    Reader.call (.multi grammarMiddleHighReader) row = some
      (⟨GRAMMAR, row.getD 62 "", row.getD 65 "", row.getD 68 "", row.getD 71 "", row.getD 74 "", row.getD 77 "", row.getD 80 "", row.getD 83 "", row.getD 87 ""⟩,
       ⟨MIDDLE, row.getD 63 "", row.getD 66 "", row.getD 69 "", row.getD 72 "", row.getD 75 "", row.getD 78 "", row.getD 81 "", row.getD 84 "", row.getD 88 ""⟩,
       ⟨HIGH, row.getD 64 "", row.getD 67 "", row.getD 70 "", row.getD 73 "", row.getD 76 "", row.getD 79 "", row.getD 82 "", row.getD 85 "", row.getD 89 ""⟩,
       ⟨row.getD 86 "", row.getD 90 "", row.getD 133 "", row.getD 134 "", row.getD 135 ""⟩) := by
  have hd1 : distribute [[GRAMMAR], [MIDDLE], [HIGH]]
      [row.getD 62 "", row.getD 63 "", row.getD 64 "", row.getD 65 "", row.getD 66 "", row.getD 67 "", row.getD 68 "", row.getD 69 "", row.getD 70 "", row.getD 71 "", row.getD 72 "", row.getD 73 "", row.getD 74 "", row.getD 75 "", row.getD 76 "", row.getD 77 "", row.getD 78 "", row.getD 79 "", row.getD 80 "", row.getD 81 "", row.getD 82 ""]
      = [[GRAMMAR, row.getD 62 "", row.getD 65 "", row.getD 68 "", row.getD 71 "", row.getD 74 "", row.getD 77 "", row.getD 80 ""],
         [MIDDLE, row.getD 63 "", row.getD 66 "", row.getD 69 "", row.getD 72 "", row.getD 75 "", row.getD 78 "", row.getD 81 ""],
         [HIGH, row.getD 64 "", row.getD 67 "", row.getD 70 "", row.getD 73 "", row.getD 76 "", row.getD 79 "", row.getD 82 ""]] := by
    simp [distribute, distributeAux]
  have hd2 : distribute
      ([[GRAMMAR, row.getD 62 "", row.getD 65 "", row.getD 68 "", row.getD 71 "", row.getD 74 "", row.getD 77 "", row.getD 80 ""],
         [MIDDLE, row.getD 63 "", row.getD 66 "", row.getD 69 "", row.getD 72 "", row.getD 75 "", row.getD 78 "", row.getD 81 ""],
         [HIGH, row.getD 64 "", row.getD 67 "", row.getD 70 "", row.getD 73 "", row.getD 76 "", row.getD 79 "", row.getD 82 ""]] ++ [[]])
      [row.getD 83 "", row.getD 84 "", row.getD 85 "", row.getD 86 "", row.getD 87 "", row.getD 88 "", row.getD 89 "", row.getD 90 ""]
      = [[GRAMMAR, row.getD 62 "", row.getD 65 "", row.getD 68 "", row.getD 71 "", row.getD 74 "", row.getD 77 "", row.getD 80 "", row.getD 83 "", row.getD 87 ""],
         [MIDDLE, row.getD 63 "", row.getD 66 "", row.getD 69 "", row.getD 72 "", row.getD 75 "", row.getD 78 "", row.getD 81 "", row.getD 84 "", row.getD 88 ""],
         [HIGH, row.getD 64 "", row.getD 67 "", row.getD 70 "", row.getD 73 "", row.getD 76 "", row.getD 79 "", row.getD 82 "", row.getD 85 "", row.getD 89 ""],
         [row.getD 86 "", row.getD 90 ""]] := by
    simp [distribute, distributeAux]
  show grammarMiddleHighReader.call row = _
  unfold MultiDivisionReader.call
  rw [(by decide : grammarMiddleHighReader.catIdxs = [62, 63, 64, 65, 66, 67, 68, 69, 70, 71, 72, 73, 74, 75, 76, 77, 78, 79, 80, 81, 82]),
    (by decide : grammarMiddleHighReader.openIdxs = [83, 84, 85, 86, 87, 88, 89, 90]),
    (by decide : grammarMiddleHighReader.whole_school_cols = [133, 134, 135]),
    readCells_eq row [62, 63, 64, 65, 66, 67, 68, 69, 70, 71, 72, 73, 74, 75, 76, 77, 78, 79, 80, 81, 82] (by intro i hi; simp at hi; omega),
    readCells_eq row [83, 84, 85, 86, 87, 88, 89, 90] (by intro i hi; simp at hi; omega),
    readCells_eq row [133, 134, 135] (by intro i hi; simp at hi; omega)]
  simp only [Option.bind_eq_bind, Option.some_bind, List.map_cons, List.map_nil]
  rw [(by decide : grammarMiddleHighReader.divisions = [GRAMMAR, MIDDLE, HIGH])]
  simp only [List.map_cons, List.map_nil]
  rw [hd1, hd2]
  simp [multiSlot, multiSlotLoop, DivisionAnswers.ofList, WholeSchoolAnswers.ofList,
    GRAMMAR, MIDDLE, HIGH, emptyDivision, List.getLastD, List.dropLast]

theorem eval_middleHigh (row : List String) (h : 135 < row.length) :
    Reader.call (.multi middleHighReader) row = some
      (emptyDivision,
       ⟨MIDDLE, row.getD 102 "", row.getD 104 "", row.getD 106 "", row.getD 108 "", row.getD 110 "", row.getD 112 "", row.getD 114 "", row.getD 116 "", row.getD 119 ""⟩,
       ⟨HIGH, row.getD 103 "", row.getD 105 "", row.getD 107 "", row.getD 109 "", row.getD 111 "", row.getD 113 "", row.getD 115 "", row.getD 117 "", row.getD 120 ""⟩,
       ⟨row.getD 118 "", row.getD 121 "", row.getD 133 "", row.getD 134 "", row.getD 135 ""⟩) := by
  have hd1 : distribute [[MIDDLE], [HIGH]]
      [row.getD 102 "", row.getD 103 "", row.getD 104 "", row.getD 105 "", row.getD 106 "", row.getD 107 "", row.getD 108 "", row.getD 109 "", row.getD 110 "", row.getD 111 "", row.getD 112 "", row.getD 113 "", row.getD 114 "", row.getD 115 ""]
      = [[MIDDLE, row.getD 102 "", row.getD 104 "", row.getD 106 "", row.getD 108 "", row.getD 110 "", row.getD 112 "", row.getD 114 ""],
         [HIGH, row.getD 103 "", row.getD 105 "", row.getD 107 "", row.getD 109 "", row.getD 111 "", row.getD 113 "", row.getD 115 ""]] := by
    simp [distribute, distributeAux]
  have hd2 : distribute
      ([[MIDDLE, row.getD 102 "", row.getD 104 "", row.getD 106 "", row.getD 108 "", row.getD 110 "", row.getD 112 "", row.getD 114 ""],
         [HIGH, row.getD 103 "", row.getD 105 "", row.getD 107 "", row.getD 109 "", row.getD 111 "", row.getD 113 "", row.getD 115 ""]] ++ [[]])
      [row.getD 116 "", row.getD 117 "", row.getD 118 "", row.getD 119 "", row.getD 120 "", row.getD 121 ""]
      = [[MIDDLE, row.getD 102 "", row.getD 104 "", row.getD 106 "", row.getD 108 "", row.getD 110 "", row.getD 112 "", row.getD 114 "", row.getD 116 "", row.getD 119 ""],
         [HIGH, row.getD 103 "", row.getD 105 "", row.getD 107 "", row.getD 109 "", row.getD 111 "", row.getD 113 "", row.getD 115 "", row.getD 117 "", row.getD 120 ""],
         [row.getD 118 "", row.getD 121 ""]] := by
    simp [distribute, distributeAux]
  show middleHighReader.call row = _
  unfold MultiDivisionReader.call
  rw [(by decide : middleHighReader.catIdxs = [102, 103, 104, 105, 106, 107, 108, 109, 110, 111, 112, 113, 114, 115]),
    (by decide : middleHighReader.openIdxs = [116, 117, 118, 119, 120, 121]),
    (by decide : middleHighReader.whole_school_cols = [133, 134, 135]),
    readCells_eq row [102, 103, 104, 105, 106, 107, 108, 109, 110, 111, 112, 113, 114, 115] (by intro i hi; simp at hi; omega),
    readCells_eq row [116, 117, 118, 119, 120, 121] (by intro i hi; simp at hi; omega),
    readCells_eq row [133, 134, 135] (by intro i hi; simp at hi; omega)]
  simp only [Option.bind_eq_bind, Option.some_bind, List.map_cons, List.map_nil]
  rw [(by decide : middleHighReader.divisions = [MIDDLE, HIGH])]
  simp only [List.map_cons, List.map_nil]
  rw [hd1, hd2]
  simp [multiSlot, multiSlotLoop, DivisionAnswers.ofList, WholeSchoolAnswers.ofList,
    GRAMMAR, MIDDLE, HIGH, emptyDivision, List.getLastD, List.dropLast]

/-! ## Claims C1, C3, C4, C6 about the readers -/

/-- C1: for every registered survey layout (all seven registry entries)
and any row long enough to contain every referenced column index (column
`EF` = 135 is the largest for every layout), the configured reader
succeeds, returning three `DivisionAnswers` each carrying exactly 9 data
fields in canonical order and one `WholeSchoolAnswers` carrying exactly 5
fields in canonical order. -/
theorem claim_C1_reader_shapes :
    ∀ p ∈ SURVEY_READERS, ∀ row : List String, 135 < row.length →
      ∃ g m h w, p.2.call row = some (g, m, h, w)
        ∧ g.dataFields.length = DIVISION_ARG_COUNT
        ∧ m.dataFields.length = DIVISION_ARG_COUNT
        ∧ h.dataFields.length = DIVISION_ARG_COUNT
        ∧ w.fieldsList.length = WHOLE_SCHOOL_ARG_COUNT := by
  intro p hp row hlen
  simp only [SURVEY_READERS, List.mem_cons, List.not_mem_nil, or_false] at hp
  rcases hp with rfl | rfl | rfl | rfl | rfl | rfl | rfl
  · exact ⟨_, _, _, _, eval_grammarOnly row hlen, rfl, rfl, rfl, rfl⟩
  · exact ⟨_, _, _, _, eval_middleOnly row hlen, rfl, rfl, rfl, rfl⟩
  · exact ⟨_, _, _, _, eval_highOnly row hlen, rfl, rfl, rfl, rfl⟩
  · exact ⟨_, _, _, _, eval_grammarMiddle row hlen, rfl, rfl, rfl, rfl⟩
  · exact ⟨_, _, _, _, eval_grammarHigh row hlen, rfl, rfl, rfl, rfl⟩
  · exact ⟨_, _, _, _, eval_grammarMiddleHigh row hlen, rfl, rfl, rfl, rfl⟩
  · exact ⟨_, _, _, _, eval_middleHigh row hlen, rfl, rfl, rfl, rfl⟩

/-- Witness for C1 at the first registry entry and a 136-cell row. -/
theorem claim_C1_witness :
    ∃ g m h w,
      Reader.call (.single grammarOnlyReader) (List.replicate 136 "") = some (g, m, h, w)
        ∧ g.dataFields.length = DIVISION_ARG_COUNT
        ∧ m.dataFields.length = DIVISION_ARG_COUNT
        ∧ h.dataFields.length = DIVISION_ARG_COUNT
        ∧ w.fieldsList.length = WHOLE_SCHOOL_ARG_COUNT :=
  claim_C1_reader_shapes ("Grammar School only (K-6)", .single grammarOnlyReader)
    (List.mem_cons_self _ _) (List.replicate 136 "") (by simp)

/-- C3: for every registered multi-division layout and any sufficiently
long row, the categorical column at range-relative offset `i` becomes
sequential data field number `i / n` of division `i % n` (`n` the number
of configured divisions, in configured order), so each division's
reconstructed fields appear in canonical field order; in particular for
divisions `[grammar, middle]`, raw categorical field `i` goes to grammar
when `i` is even and middle when `i` is odd. -/
theorem claim_C3_round_robin_categorical :
    ∀ row : List String, 135 < row.length →
      ((∃ g m h w, Reader.call (.multi grammarMiddleReader) row = some (g, m, h, w)
          ∧ ∀ i < 14, (if i % 2 = 0 then g else m).dataFields.getD (i / 2) ""
              = row.getD (22 + i) "")
        ∧ (∃ g m h w, Reader.call (.multi grammarHighReader) row = some (g, m, h, w)
          ∧ ∀ i < 14, (if i % 2 = 0 then g else h).dataFields.getD (i / 2) ""
              = row.getD (42 + i) "")
        ∧ (∃ g m h w, Reader.call (.multi grammarMiddleHighReader) row = some (g, m, h, w)
          ∧ ∀ i < 21, (if i % 3 = 0 then g else if i % 3 = 1 then m else h).dataFields.getD
              (i / 3) "" = row.getD (62 + i) "")
        ∧ (∃ g m h w, Reader.call (.multi middleHighReader) row = some (g, m, h, w)
          ∧ ∀ i < 14, (if i % 2 = 0 then m else h).dataFields.getD (i / 2) ""
              = row.getD (102 + i) "")) := by
  intro row hlen
  refine ⟨⟨_, _, _, _, eval_grammarMiddle row hlen, ?_⟩,
    ⟨_, _, _, _, eval_grammarHigh row hlen, ?_⟩,
    ⟨_, _, _, _, eval_grammarMiddleHigh row hlen, ?_⟩,
    ⟨_, _, _, _, eval_middleHigh row hlen, ?_⟩⟩ <;>
  · intro i hi
    interval_cases i <;> simp [DivisionAnswers.dataFields]

/-- Witness for C3 at a 136-cell row (first conjunct). -/
theorem claim_C3_witness :
    ∃ g m h w,
      Reader.call (.multi grammarMiddleReader) (List.replicate 136 "") = some (g, m, h, w)
        ∧ ∀ i < 14, (if i % 2 = 0 then g else m).dataFields.getD (i / 2) ""
            = (List.replicate 136 "").getD (22 + i) "" :=
  (claim_C3_round_robin_categorical (List.replicate 136 "") (by simp)).1

/-- C4: for every registered multi-division layout and any sufficiently
long row, open-ended columns are distributed round-robin over
`n + 1` buckets (one per division, in configured order, plus one shared
bucket); the shared bucket's two values become the whole-school strengths
and weaknesses, and the explicitly configured whole-school columns
(`ED`, `EE`, `EF` = 133, 134, 135) are appended after them in configured
order, completing the 5-field whole-school record. -/
theorem claim_C4_round_robin_open :
    ∀ row : List String, 135 < row.length →
      ((∃ g m h w, Reader.call (.multi grammarMiddleReader) row = some (g, m, h, w)
          ∧ g.strengths = row.getD 36 "" ∧ m.strengths = row.getD 37 ""
          ∧ g.weaknesses = row.getD 39 "" ∧ m.weaknesses = row.getD 40 ""
          ∧ w.fieldsList = [row.getD 38 "", row.getD 41 "", row.getD 133 "",
              row.getD 134 "", row.getD 135 ""])
        ∧ (∃ g m h w, Reader.call (.multi grammarHighReader) row = some (g, m, h, w)
          ∧ g.strengths = row.getD 56 "" ∧ h.strengths = row.getD 57 ""
          ∧ g.weaknesses = row.getD 59 "" ∧ h.weaknesses = row.getD 60 ""
          ∧ w.fieldsList = [row.getD 58 "", row.getD 61 "", row.getD 133 "",
              row.getD 134 "", row.getD 135 ""])
        ∧ (∃ g m h w, Reader.call (.multi grammarMiddleHighReader) row = some (g, m, h, w)
          ∧ g.strengths = row.getD 83 "" ∧ m.strengths = row.getD 84 ""
          ∧ h.strengths = row.getD 85 ""
          ∧ g.weaknesses = row.getD 87 "" ∧ m.weaknesses = row.getD 88 ""
          ∧ h.weaknesses = row.getD 89 ""
          ∧ w.fieldsList = [row.getD 86 "", row.getD 90 "", row.getD 133 "",
              row.getD 134 "", row.getD 135 ""])
        ∧ (∃ g m h w, Reader.call (.multi middleHighReader) row = some (g, m, h, w)
          ∧ m.strengths = row.getD 116 "" ∧ h.strengths = row.getD 117 ""
          ∧ m.weaknesses = row.getD 119 "" ∧ h.weaknesses = row.getD 120 ""
          ∧ w.fieldsList = [row.getD 118 "", row.getD 121 "", row.getD 133 "",
              row.getD 134 "", row.getD 135 ""])) := by
  intro row hlen
  exact ⟨⟨_, _, _, _, eval_grammarMiddle row hlen, rfl, rfl, rfl, rfl, rfl⟩,
    ⟨_, _, _, _, eval_grammarHigh row hlen, rfl, rfl, rfl, rfl, rfl⟩,
    ⟨_, _, _, _, eval_grammarMiddleHigh row hlen, rfl, rfl, rfl, rfl, rfl, rfl, rfl⟩,
    ⟨_, _, _, _, eval_middleHigh row hlen, rfl, rfl, rfl, rfl, rfl⟩⟩

/-- Witness for C4 at a 136-cell row (first conjunct). -/
theorem claim_C4_witness :
    ∃ g m h w,
      Reader.call (.multi grammarMiddleReader) (List.replicate 136 "") = some (g, m, h, w)
        ∧ g.strengths = (List.replicate 136 "").getD 36 ""
        ∧ m.strengths = (List.replicate 136 "").getD 37 ""
        ∧ g.weaknesses = (List.replicate 136 "").getD 39 ""
        ∧ m.weaknesses = (List.replicate 136 "").getD 40 ""
        ∧ w.fieldsList = [(List.replicate 136 "").getD 38 "",
            (List.replicate 136 "").getD 41 "", (List.replicate 136 "").getD 133 "",
            (List.replicate 136 "").getD 134 "", (List.replicate 136 "").getD 135 ""] :=
  (claim_C4_round_robin_open (List.replicate 136 "") (by simp)).1

/-- C6: for both reader kinds and every registered layout, every division
absent from the layout's configured division list receives the all-empty
`DivisionAnswers` (never omitted), for any sufficiently long row; the
all-three-divisions layout has no absent division.  The last conjunct
records that the empty record's 9 data fields are all empty strings. -/
theorem claim_C6_absent_divisions_empty :
    ∀ row : List String, 135 < row.length →
      ((∃ g m h w, Reader.call (.single grammarOnlyReader) row = some (g, m, h, w)
          ∧ m = emptyDivision ∧ h = emptyDivision)
        ∧ (∃ g m h w, Reader.call (.single middleOnlyReader) row = some (g, m, h, w)
          ∧ g = emptyDivision ∧ h = emptyDivision)
        ∧ (∃ g m h w, Reader.call (.single highOnlyReader) row = some (g, m, h, w)
          ∧ g = emptyDivision ∧ m = emptyDivision)
        ∧ (∃ g m h w, Reader.call (.multi grammarMiddleReader) row = some (g, m, h, w)
          ∧ h = emptyDivision)
        ∧ (∃ g m h w, Reader.call (.multi grammarHighReader) row = some (g, m, h, w)
          ∧ m = emptyDivision)
        ∧ (∃ g m h w, Reader.call (.multi middleHighReader) row = some (g, m, h, w)
          ∧ g = emptyDivision)
        ∧ emptyDivision.dataFields = ["", "", "", "", "", "", "", "", ""]) := by
  intro row hlen
  exact ⟨⟨_, _, _, _, eval_grammarOnly row hlen, rfl, rfl⟩,
    ⟨_, _, _, _, eval_middleOnly row hlen, rfl, rfl⟩,
    ⟨_, _, _, _, eval_highOnly row hlen, rfl, rfl⟩,
    ⟨_, _, _, _, eval_grammarMiddle row hlen, rfl⟩,
    ⟨_, _, _, _, eval_grammarHigh row hlen, rfl⟩,
    ⟨_, _, _, _, eval_middleHigh row hlen, rfl⟩, rfl⟩

/-- Witness for C6 at a 136-cell row (first conjunct). -/
theorem claim_C6_witness :
    ∃ g m h w,
      Reader.call (.single grammarOnlyReader) (List.replicate 136 "") = some (g, m, h, w)
        ∧ m = emptyDivision ∧ h = emptyDivision :=
  (claim_C6_absent_divisions_empty (List.replicate 136 "") (by simp)).1

/-! ## Claims C5, C7, C8 about the pipeline -/

/-- C5 counterexample: on the empty input row, the second output row as
the claim states it (field names starting with `education`) is not
produced: the source spells the first division field name `eduction`. -/
theorem claim_C5_counterexample :
    processRow 1 [] ≠ some
      (["education", "growth", "virtues", "character_growth",
        "teacher_communication", "leadership_communication", "welcoming",
        "strengths", "weaknesses"]
       ++ ["education", "growth", "virtues", "character_growth",
        "teacher_communication", "leadership_communication", "welcoming",
        "strengths", "weaknesses"]
       ++ ["education", "growth", "virtues", "character_growth",
        "teacher_communication", "leadership_communication", "welcoming",
        "strengths", "weaknesses"]
       ++ ["strengths", "weaknesses", "tenure", "iep_etc", "minority"]) := by
  decide

/-- C5 (amended): for every input row, the second output row (row index 1)
is the row's leading fixed columns (up to and including index 10)
unchanged, followed by the 9 division field names as spelled in
cleaner.py (`eduction`, not `education`), repeated three times, followed
by the 5 whole-school field names once. -/
theorem claim_C5_second_header :
    ∀ row : List String, processRow 1 row = some
      (row.take 11
       ++ ["eduction", "growth", "virtues", "character_growth",
           "teacher_communication", "leadership_communication", "welcoming",
           "strengths", "weaknesses"]
       ++ ["eduction", "growth", "virtues", "character_growth",
           "teacher_communication", "leadership_communication", "welcoming",
           "strengths", "weaknesses"]
       ++ ["eduction", "growth", "virtues", "character_growth",
           "teacher_communication", "leadership_communication", "welcoming",
           "strengths", "weaknesses"]
       ++ ["strengths", "weaknesses", "tenure", "iep_etc", "minority"]) := by
  intro row
  rfl

/-- C7: for every row in every state (first header, second header, data),
the produced output row begins with the input row's cells from column 0
through the survey-type column (index 10) inclusive, copied through
unchanged; the boundary is identical for all three row states. -/
theorem claim_C7_leading_columns :
    ∀ (i : ℕ) (row out : List String), processRow i row = some out →
      ∃ rest, out = row.take (ROW_INDEX_SURVEY_TYPE + 1) ++ rest := by
  intro i row out h
  unfold processRow at h
  split_ifs at h
  · injection h with h
    exact ⟨_, by rw [← h]; simp only [make_first_row, List.append_assoc]; rfl⟩
  · injection h with h
    exact ⟨_, by rw [← h]; simp only [make_second_row, List.append_assoc]; rfl⟩
  · rcases hget : row.get? ROW_INDEX_SURVEY_TYPE with _ | st
    · rw [hget] at h
      simp only [Option.bind_eq_bind, Option.none_bind] at h
      cases h
    · rw [hget] at h
      simp only [Option.bind_eq_bind, Option.some_bind] at h
      rcases hlook : List.lookup st SURVEY_READERS with _ | rd
      · rw [hlook] at h
        simp only [Option.bind_eq_bind, Option.none_bind] at h
        cases h
      · rw [hlook] at h
        simp only [Option.bind_eq_bind, Option.some_bind] at h
        rcases hcall : rd.call row with _ | out4
        · rw [hcall] at h
          simp only [Option.bind_eq_bind, Option.none_bind] at h
          cases h
        · rw [hcall] at h
          obtain ⟨g, m, hh, w⟩ := out4
          simp only [Option.bind_eq_bind, Option.some_bind] at h
          injection h with h
          exact ⟨_, by rw [← h]; simp only [List.append_assoc]; rfl⟩

/-- Witness for C7 at the first header state on a 2-cell row. -/
theorem claim_C7_witness :
    ∃ rest, make_first_row ["a", "b"]
      = (["a", "b"] : List String).take (ROW_INDEX_SURVEY_TYPE + 1) ++ rest :=
  claim_C7_leading_columns 0 ["a", "b"] (make_first_row ["a", "b"]) rfl

/-- C8: for every data row (index at least 2) whose survey-type cell does
not exactly equal one of the seven registered layout literals, processing
the row signals a lookup failure (`none`, the Python `KeyError`) rather
than silently producing a default or empty output row. -/
theorem claim_C8_unknown_survey_type :
    ∀ (i : ℕ) (row : List String) (st : String), 2 ≤ i →
      row.get? ROW_INDEX_SURVEY_TYPE = some st →
      List.lookup st SURVEY_READERS = none →
      processRow i row = none := by
  intro i row st hi hst hlook
  unfold processRow
  rw [if_neg (by omega : ¬ i = 0), if_neg (by omega : ¬ i = 1), hst]
  simp only [Option.bind_eq_bind, Option.some_bind]
  rw [hlook]
  simp only [Option.bind_eq_bind, Option.none_bind]

/-- Witness for C8: an unregistered survey-type literal on a data row. -/
theorem claim_C8_witness :
    processRow 2 (List.replicate 11 "bogus") = none :=
  claim_C8_unknown_survey_type 2 (List.replicate 11 "bogus") "bogus"
    (by omega) (by rfl) (by rfl)

end SacSurvey
